import Mathlib

/-!
Verification of the PyMDB `GraphLoader` client (`src/pymdb/graph_loader.py`).

The file shallowly embeds the graph-loader session machinery: the wire codec
primitives, the message builders of the three loader variants, the lifecycle
state machine (open/closed guarding, close, size, iteration) and the decoding of
a `NEXT` reply payload into a `Graph` batch.  Bytes are modelled as `Nat`
values (each `< 256` in well-formed data); byte buffers are `List Nat`;
32-bit floats are carried by their 4-byte bit patterns, since the decoder never
interprets their numeric value.

The repository modules `utils/packer.py`, `utils/decorators.py`, `protocol.py`
and `mdb_client.py` are not part of the given sources; their behaviour is
modelled from the specification (Wire Codec §4.1, Message Catalog §4.2,
error taxonomy §7) and each such definition is marked `Modelled from the spec`.
-/

/-- Little-endian byte decomposition: `natToLE k n` is the `k`-byte
little-endian encoding of `n` (truncated modulo `256^k`). -/
def natToLE : Nat → Nat → List Nat
  | 0, _ => []
  | k + 1, n => n % 256 :: natToLE k (n / 256)

/-- Little-endian recomposition of a byte list into a natural number. -/
def leToNat : List Nat → Nat
  | [] => 0
  | b :: bs => b + 256 * leToNat bs

/-- Modelled from the spec: `packer.pack_byte` (packer.py is not in src).
One-byte encoding of an opcode. -/
def pack_byte (b : Nat) : List Nat := [b % 256]

/-- Modelled from the spec: `packer.pack_uint64` — fixed-width 8-byte
little-endian encoding of a 64-bit unsigned integer. -/
def pack_uint64 (n : Nat) : List Nat := natToLE 8 n

/-- Modelled from the spec: `packer.pack_uint64_vector` — the concatenation of
the 8-byte encodings of the entries, with no length prefix of its own. -/
def pack_uint64_vector (v : List Nat) : List Nat := (v.map pack_uint64).flatten

/-- Modelled from the spec: `packer.pack_string` — a string is sent as its raw
bytes, never null-terminated; its length travels in a separate u64 field.
Strings are modelled as their byte lists. -/
def pack_string (s : List Nat) : List Nat := s

/-- Encoding of one 32-bit float bit pattern as 4 little-endian bytes. -/
def pack_float32 (p : Nat) : List Nat := natToLE 4 p

/-- Modelled from the spec: `packer.unpack_uint64` — decodes exactly 8 bytes;
a buffer of any other length is a decoding failure. -/
def unpack_uint64 (bs : List Nat) : Option Nat :=
  if bs.length = 8 then some (leToNat bs) else none

/-- Splits a byte list into consecutive 8-byte little-endian integers. -/
def chunks8 : List Nat → List Nat
  | b0 :: b1 :: b2 :: b3 :: b4 :: b5 :: b6 :: b7 :: rest =>
      leToNat [b0, b1, b2, b3, b4, b5, b6, b7] :: chunks8 rest
  | _ => []

/-- Splits a byte list into consecutive 4-byte little-endian values. -/
def chunks4 : List Nat → List Nat
  | b0 :: b1 :: b2 :: b3 :: rest => leToNat [b0, b1, b2, b3] :: chunks4 rest
  | _ => []

/-- Modelled from the spec: `packer.unpack_uint64_vector` — the buffer length
must be a multiple of 8; yields the vector of u64 values. -/
def unpack_uint64_vector (bs : List Nat) : Option (List Nat) :=
  if bs.length % 8 = 0 then some (chunks8 bs) else none

/-- Modelled from the spec: `packer.unpack_float_vector` — the buffer length
must be a multiple of 4; yields the float values as 32-bit patterns. -/
def unpack_float_vector (bs : List Nat) : Option (List Nat) :=
  if bs.length % 4 = 0 then some (chunks4 bs) else none

/-- Python slicing `data[lo:hi]`: silently truncated at the end of the list. -/
def pySlice (data : List Nat) (lo hi : Nat) : List Nat :=
  (data.drop lo).take (hi - lo)

/-! ## Message catalog

Modelled from the spec: `protocol.py` is not in src.  The opcode and status
values are implementation-defined but fixed (§4.2); the concrete numbers below
are representative — no theorem depends on them, only on their distinctness. -/

/-- Modelled from the spec: `RequestType.GRAPH_LOADER_NEXT`. -/
def RT_GRAPH_LOADER_NEXT : Nat := 10

/-- Modelled from the spec: `RequestType.GRAPH_LOADER_BEGIN`. -/
def RT_GRAPH_LOADER_BEGIN : Nat := 11

/-- Modelled from the spec: `RequestType.GRAPH_LOADER_CLOSE`. -/
def RT_GRAPH_LOADER_CLOSE : Nat := 12

/-- Modelled from the spec: `RequestType.EVAL_GRAPH_LOADER_NEW`. -/
def RT_EVAL_GRAPH_LOADER_NEW : Nat := 13

/-- Modelled from the spec: `RequestType.SAMPLING_GRAPH_LOADER_NEW`. -/
def RT_SAMPLING_GRAPH_LOADER_NEW : Nat := 14

/-- Modelled from the spec: `RequestType.TRAIN_GRAPH_LOADER_NEW`. -/
def RT_TRAIN_GRAPH_LOADER_NEW : Nat := 15

/-- Modelled from the spec: `StatusCode` normal-completion code. -/
def SC_SUCCESS : Nat := 0

/-- Modelled from the spec: `StatusCode.END_OF_ITERATION`. -/
def SC_END_OF_ITERATION : Nat := 1

/-! ## Graph batch and `NEXT` decoding (`Graph`, `GraphLoader.__next__`) -/

/-- The decoded mini-batch (`Graph` in graph_loader.py).  `node_features` is a
row-major `[num_nodes, feature_size]` matrix of float32 bit patterns;
`node_labels`, `node_ids` are u64 vectors; `edge_index` has shape
`[2, num_edges]`. -/
structure Graph where
  node_features : List (List Nat)
  node_labels : List Nat
  edge_index : List (List Nat)
  node_ids : List Nat
  num_seeds : Nat
  feature_size : Nat
deriving DecidableEq, Repr

/-- Row-major chunking of a flat list into `r` rows of `c` entries
(`torch.Tensor.reshape(r, c)` on a matching-length buffer). -/
def toRows : Nat → Nat → List Nat → List (List Nat)
  | 0, _, _ => []
  | r + 1, c, l => l.take c :: toRows r c (l.drop c)

/-- The `torch.Tensor.reshape(r, c)` step: fails unless the element count is exactly
`r * c`; otherwise chunks row-major. -/
def reshape (l : List Nat) (r c : Nat) : Option (List (List Nat)) :=
  if l.length = r * c then some (toRows r c l) else none

/-- The decode procedure of `GraphLoader.__next__` on a normal-status payload
(graph_loader.py lines 135–165): four u64 header fields, then the float
matrix, the label vector, the edge-index matrix and the id vector, each taken
from the slice `data[lo:hi]` at the cursor positions computed from the header.
`none` models a raised decoding exception. -/
def graphLoaderNext (data : List Nat) : Option Graph := do
  let num_nodes ← unpack_uint64 (pySlice data 0 8)
  let num_edges ← unpack_uint64 (pySlice data 8 16)
  let num_seeds ← unpack_uint64 (pySlice data 16 24)
  let feature_size ← unpack_uint64 (pySlice data 24 32)
  let hi1 := 32 + 4 * num_nodes * feature_size
  let floats ← unpack_float_vector (pySlice data 32 hi1)
  let node_features ← reshape floats num_nodes feature_size
  let hi2 := hi1 + 8 * num_nodes
  let node_labels ← unpack_uint64_vector (pySlice data hi1 hi2)
  let hi3 := hi2 + 8 * 2 * num_edges
  let edges ← unpack_uint64_vector (pySlice data hi2 hi3)
  let edge_index ← reshape edges 2 num_edges
  let hi4 := hi3 + 8 * num_nodes
  let node_ids ← unpack_uint64_vector (pySlice data hi3 hi4)
  return ⟨node_features, node_labels, edge_index, node_ids, num_seeds, feature_size⟩

/-! ## Session state and lifecycle operations (`GraphLoader`) -/

/-- The mutable fields of a `GraphLoader` instance: `_graph_loader_id`,
`_size`, `_closed`. -/
structure SessionState where
  graph_loader_id : Option Nat
  size : Option Nat
  closed : Bool
deriving DecidableEq, Repr

/-- The error kinds of the design (§7): local argument errors (`ValueError`),
invalid-state errors on a closed session, protocol/decoding failures, and
server-reported status codes. -/
inductive LoaderError
  | valueError
  | invalidState
  | decodeError
  | serverError (code : Nat)
deriving DecidableEq, Repr

/-- Outcome of one lifecycle operation: the request bytes it sent (in order),
its result, and the instance state afterwards. -/
structure OpResult (α : Type) where
  sent : List (List Nat)
  out : Except LoaderError α
  state : SessionState
deriving Repr

/-- Result of `GraphLoader.__next__`: either a decoded batch or the
`StopIteration` end-of-iteration signal (a normal terminal signal, not an
error). -/
inductive NextOutcome
  | batch (g : Graph)
  | stopIteration
deriving DecidableEq, Repr

/-- Modelled from the spec: `MDBClient._recv` (mdb_client.py is not in src).
The reply status is validated on receipt: normal completion and
`END_OF_ITERATION` pass through with the payload; any other status code is
raised as a server-reported failure carrying that code (§7). -/
def recvCheck (status : Nat) (payload : List Nat) : Except LoaderError (List Nat) :=
  if status = SC_SUCCESS ∨ status = SC_END_OF_ITERATION then .ok payload
  else .error (.serverError status)

/-- Modelled from the spec: `decorators.check_closed` (decorators.py is not in
src) — the guard wrapped around `size`, `__iter__` and `__next__`: on a closed
instance it raises an invalid-state error before the body runs, so no request
is sent. -/
def check_closed {α : Type} (s : SessionState) (body : OpResult α) : OpResult α :=
  if s.closed then ⟨[], .error .invalidState, s⟩ else body

/-- Embedding of `GraphLoader.is_closed`: pure field read. -/
def GraphLoader_is_closed (s : SessionState) : Bool := s.closed

/-- The request message of `GraphLoader.__next__`:
opcode byte then the loader id as u64. -/
def nextMsg (s : SessionState) : List Nat :=
  pack_byte RT_GRAPH_LOADER_NEXT ++ pack_uint64 (s.graph_loader_id.getD 0)

/-- The request message of `GraphLoader._begin`. -/
def beginMsg (s : SessionState) : List Nat :=
  pack_byte RT_GRAPH_LOADER_BEGIN ++ pack_uint64 (s.graph_loader_id.getD 0)

/-- The request message of `GraphLoader._close`. -/
def closeMsg (s : SessionState) : List Nat :=
  pack_byte RT_GRAPH_LOADER_CLOSE ++ pack_uint64 (s.graph_loader_id.getD 0)

/-- Embedding of `GraphLoader.__next__` (graph_loader.py lines 121–165), with the reply
`(status, payload)` supplied by the environment: guarded by `check_closed`;
sends `NEXT ∥ session_id`; `END_OF_ITERATION` raises `StopIteration`;
otherwise the payload is decoded into a `Graph`. -/
def GraphLoader_next (s : SessionState) (status : Nat) (payload : List Nat) :
    OpResult NextOutcome :=
  check_closed s <|
    match recvCheck status payload with
    | .error e => ⟨[nextMsg s], .error e, s⟩
    | .ok data =>
      if status = SC_END_OF_ITERATION then ⟨[nextMsg s], .ok .stopIteration, s⟩
      else
        match graphLoaderNext data with
        | some g => ⟨[nextMsg s], .ok (.batch g), s⟩
        | none => ⟨[nextMsg s], .error .decodeError, s⟩

/-- Embedding of `GraphLoader._begin` (lines 167–175): sends `BEGIN ∥ session_id` and
consumes the reply, which is discarded beyond status validation. -/
def GraphLoader_begin (s : SessionState) (status : Nat) (payload : List Nat) :
    OpResult Unit :=
  match recvCheck status payload with
  | .error e => ⟨[beginMsg s], .error e, s⟩
  | .ok _ => ⟨[beginMsg s], .ok (), s⟩

/-- Embedding of `GraphLoader.__iter__` (lines 115–118): guarded by `check_closed`, then
delegates to `_begin`. -/
def GraphLoader_iter (s : SessionState) (status : Nat) (payload : List Nat) :
    OpResult Unit :=
  check_closed s (GraphLoader_begin s status payload)

/-- Embedding of `GraphLoader.size` (lines 110–112): guarded by `check_closed`; returns the
cached `_size` and sends nothing. -/
def GraphLoader_size (s : SessionState) : OpResult (Option Nat) :=
  check_closed s ⟨[], .ok s.size, s⟩

/-- Embedding of `GraphLoader.__len__` (lines 106–107): delegates to `size`. -/
def GraphLoader_len (s : SessionState) : OpResult (Option Nat) :=
  GraphLoader_size s

/-- Embedding of `GraphLoader._close` (lines 177–188): sends `CLOSE ∥ session_id`, consumes
the reply, then clears `_graph_loader_id`/`_size` and sets `_closed`. -/
def GraphLoader_close_inner (s : SessionState) (status : Nat) (payload : List Nat) :
    OpResult Unit :=
  match recvCheck status payload with
  | .error e => ⟨[closeMsg s], .error e, s⟩
  | .ok _ => ⟨[closeMsg s], .ok (), ⟨none, none, true⟩⟩

/-- Embedding of `GraphLoader.close` (lines 101–103): a no-op when already closed,
otherwise `_close`. -/
def GraphLoader_close (s : SessionState) (status : Nat) (payload : List Nat) :
    OpResult Unit :=
  if s.closed then ⟨[], .ok (), s⟩ else GraphLoader_close_inner s status payload

/-! ## Construction (`GraphLoader.__init__` and the three variants) -/

/-- The immutable creation parameters stored on the instance by
`GraphLoader.__init__`: the tensor-store name (as bytes), `batch_size`, and
the normalized `num_neighbors` vector. -/
structure LoaderConfig where
  tensor_store_name : List Nat
  batch_size : Nat
  num_neighbors : List Nat
deriving DecidableEq, Repr

/-- The negative-sentinel normalization applied to each `num_neighbors` entry
(graph_loader.py lines 79–81). -/
def normNeighbor (x : Int) : Nat :=
  if x < 0 then 2 ^ 64 - 1 else x.toNat

/-- Embedding of `GraphLoader.__init__` (lines 59–85): validates `batch_size` and
`num_neighbors` before anything else, stores the config with negative
neighbor counts replaced by `2^64 - 1`, and initializes the instance fields
to the closed state (`_graph_loader_id = None`, `_size = None`,
`_closed = True`).  No message is built or sent here. -/
def GraphLoader_init (tensor_store_name : List Nat) (batch_size : Int)
    (num_neighbors : List Int) : Except LoaderError (LoaderConfig × SessionState) :=
  if batch_size < 1 then .error .valueError
  else if num_neighbors.length = 0 then .error .valueError
  else .ok (⟨tensor_store_name, batch_size.toNat, num_neighbors.map normNeighbor⟩,
            ⟨none, none, true⟩)

/-- The creation message of `EvalGraphLoader._new` (lines 208–217), built by
successive `msg +=` appends as in the source. -/
def evalNewMsg (cfg : LoaderConfig) : List Nat :=
  let msg : List Nat := []
  let msg := msg ++ pack_byte RT_EVAL_GRAPH_LOADER_NEW
  let msg := msg ++ pack_uint64 cfg.batch_size
  let msg := msg ++ pack_uint64 cfg.num_neighbors.length
  let msg := msg ++ pack_uint64 cfg.tensor_store_name.length
  let msg := msg ++ pack_uint64_vector cfg.num_neighbors
  let msg := msg ++ pack_string cfg.tensor_store_name
  msg

/-- The creation message of `SamplingGraphLoader._new` (lines 257–267). -/
def samplingNewMsg (cfg : LoaderConfig) (num_seeds : Nat) : List Nat :=
  let msg : List Nat := []
  let msg := msg ++ pack_byte RT_SAMPLING_GRAPH_LOADER_NEW
  let msg := msg ++ pack_uint64 cfg.batch_size
  let msg := msg ++ pack_uint64 num_seeds
  let msg := msg ++ pack_uint64 cfg.num_neighbors.length
  let msg := msg ++ pack_uint64 cfg.tensor_store_name.length
  let msg := msg ++ pack_uint64_vector cfg.num_neighbors
  let msg := msg ++ pack_string cfg.tensor_store_name
  msg

/-- The creation message of `TrainGraphLoader._new` (lines 307–318). -/
def trainNewMsg (cfg : LoaderConfig) (seed_ids : List Nat) : List Nat :=
  let msg : List Nat := []
  let msg := msg ++ pack_byte RT_TRAIN_GRAPH_LOADER_NEW
  let msg := msg ++ pack_uint64 cfg.batch_size
  let msg := msg ++ pack_uint64 cfg.num_neighbors.length
  let msg := msg ++ pack_uint64 cfg.tensor_store_name.length
  let msg := msg ++ pack_uint64 seed_ids.length
  let msg := msg ++ pack_uint64_vector cfg.num_neighbors
  let msg := msg ++ pack_string cfg.tensor_store_name
  let msg := msg ++ pack_uint64_vector seed_ids
  msg

/-- The reply handling shared by all three `_new` bodies: parse
`session_id = data[0:8]` then `size = data[8:16]`, and only after both parses
succeed set `_closed = False`.  The field writes are sequential, as in the
source: a failure on the second parse leaves the first write in place but the
instance still closed. -/
def loaderNewParse (s : SessionState) (data : List Nat) :
    SessionState × Except LoaderError Unit :=
  match unpack_uint64 (pySlice data 0 8) with
  | none => (s, .error .decodeError)
  | some id =>
    match unpack_uint64 (pySlice data 8 16) with
    | none => ({ s with graph_loader_id := some id }, .error .decodeError)
    | some sz => (⟨some id, some sz, false⟩, .ok ())

/-- A `_new` round-trip: send the creation message, receive
`(status, payload)` through the status-validating receive, parse the reply. -/
def loaderNew (msg : List Nat) (s : SessionState) (status : Nat)
    (payload : List Nat) : OpResult Unit :=
  match recvCheck status payload with
  | .error e => ⟨[msg], .error e, s⟩
  | .ok data => ⟨[msg], (loaderNewParse s data).2, (loaderNewParse s data).1⟩

/-- Embedding of `EvalGraphLoader.__init__` (lines 193–206): base validation and field
setup, then `_new`.  Returns the requests sent and, on success, the stored
config and the instance state. -/
def EvalGraphLoader_mk (tensor_store_name : List Nat) (batch_size : Int)
    (num_neighbors : List Int) (status : Nat) (payload : List Nat) :
    List (List Nat) × Except LoaderError (LoaderConfig × SessionState) :=
  match GraphLoader_init tensor_store_name batch_size num_neighbors with
  | .error e => ([], .error e)
  | .ok (cfg, s) =>
    let r := loaderNew (evalNewMsg cfg) s status payload
    (r.sent, r.out.map fun _ => (cfg, r.state))

/-- Embedding of `SamplingGraphLoader.__init__` (lines 237–255): `num_seeds` is validated
before the base constructor runs, then `_new`. -/
def SamplingGraphLoader_mk (tensor_store_name : List Nat) (batch_size : Int)
    (num_neighbors : List Int) (num_seeds : Int) (status : Nat)
    (payload : List Nat) :
    List (List Nat) × Except LoaderError (LoaderConfig × SessionState) :=
  if num_seeds < 1 then ([], .error .valueError)
  else
    match GraphLoader_init tensor_store_name batch_size num_neighbors with
    | .error e => ([], .error e)
    | .ok (cfg, s) =>
      let r := loaderNew (samplingNewMsg cfg num_seeds.toNat) s status payload
      (r.sent, r.out.map fun _ => (cfg, r.state))

/-- Embedding of `TrainGraphLoader.__init__` (lines 287–305): base constructor first, then
the `seed_ids` non-emptiness check, then `_new`. -/
def TrainGraphLoader_mk (tensor_store_name : List Nat) (batch_size : Int)
    (num_neighbors : List Int) (seed_ids : List Nat) (status : Nat)
    (payload : List Nat) :
    List (List Nat) × Except LoaderError (LoaderConfig × SessionState) :=
  match GraphLoader_init tensor_store_name batch_size num_neighbors with
  | .error e => ([], .error e)
  | .ok (cfg, s) =>
    if seed_ids.length = 0 then ([], .error .valueError)
    else
      let r := loaderNew (trainNewMsg cfg seed_ids) s status payload
      (r.sent, r.out.map fun _ => (cfg, r.state))

/-! ## Request layouts as written in the specification (§6)

These definitions follow the specification text, to be compared with the
message builders embedded from the source. -/

/-- Spec layout: `EVAL_NEW`: opcode ∥ batch_size ∥ len(num_neighbors) ∥
len(tensor_store_name) ∥ num_neighbors[] ∥ tensor_store_name_bytes. -/
def specEvalNewLayout (opcode batch_size : Nat) (num_neighbors : List Nat)
    (name : List Nat) : List Nat :=
  pack_byte opcode ++ pack_uint64 batch_size ++ pack_uint64 num_neighbors.length
    ++ pack_uint64 name.length ++ pack_uint64_vector num_neighbors
    ++ pack_string name

/-- Spec layout: `SAMPLING_NEW`: opcode ∥ batch_size ∥ num_seeds ∥
len(num_neighbors) ∥ len(tensor_store_name) ∥ num_neighbors[] ∥
tensor_store_name_bytes. -/
def specSamplingNewLayout (opcode batch_size num_seeds : Nat)
    (num_neighbors : List Nat) (name : List Nat) : List Nat :=
  pack_byte opcode ++ pack_uint64 batch_size ++ pack_uint64 num_seeds
    ++ pack_uint64 num_neighbors.length ++ pack_uint64 name.length
    ++ pack_uint64_vector num_neighbors ++ pack_string name

/-- Spec layout: `TRAIN_NEW`: opcode ∥ batch_size ∥ len(num_neighbors) ∥
len(tensor_store_name) ∥ len(seed_ids) ∥ num_neighbors[] ∥
tensor_store_name_bytes ∥ seed_ids[]. -/
def specTrainNewLayout (opcode batch_size : Nat) (num_neighbors : List Nat)
    (name : List Nat) (seed_ids : List Nat) : List Nat :=
  pack_byte opcode ++ pack_uint64 batch_size ++ pack_uint64 num_neighbors.length
    ++ pack_uint64 name.length ++ pack_uint64 seed_ids.length
    ++ pack_uint64_vector num_neighbors ++ pack_string name
    ++ pack_uint64_vector seed_ids

/-! ## Codec lemmas -/

theorem natToLE_length (k n : Nat) : (natToLE k n).length = k := by
  induction k generalizing n with
  | zero => rfl
  | succ k ih => simp [natToLE, ih]

theorem leToNat_natToLE (k n : Nat) (h : n < 256 ^ k) :
    leToNat (natToLE k n) = n := by
  induction k generalizing n with
  | zero => simp [natToLE, leToNat]; omega
  | succ k ih =>
    have hdiv : n / 256 < 256 ^ k := by
      rw [Nat.div_lt_iff_lt_mul (by norm_num)]
      calc n < 256 ^ (k + 1) := h
        _ = 256 ^ k * 256 := by ring
    simp only [natToLE, leToNat, ih (n / 256) hdiv]
    omega

theorem pack_uint64_length (n : Nat) : (pack_uint64 n).length = 8 :=
  natToLE_length 8 n

theorem unpack_pack_uint64 (n : Nat) (h : n < 2 ^ 64) :
    unpack_uint64 (pack_uint64 n) = some n := by
  have h8 : n < 256 ^ 8 := by norm_num at h ⊢; omega
  simp [unpack_uint64, pack_uint64, natToLE_length, leToNat_natToLE 8 n h8]

theorem pack_uint64_vector_length (v : List Nat) :
    (pack_uint64_vector v).length = 8 * v.length := by
  induction v with
  | nil => rfl
  | cons x xs ih =>
    simp [pack_uint64_vector, List.map_cons, List.flatten_cons,
      List.length_append, pack_uint64_length] at *
    omega

theorem float_bytes_length (v : List Nat) :
    ((v.map pack_float32).flatten).length = 4 * v.length := by
  induction v with
  | nil => rfl
  | cons x xs ih =>
    simp [List.map_cons, List.flatten_cons, List.length_append,
      pack_float32, natToLE_length] at *
    omega

theorem chunks8_flatten (v : List Nat) (h : ∀ x ∈ v, x < 2 ^ 64) :
    chunks8 ((v.map pack_uint64).flatten) = v := by
  induction v with
  | nil => rfl
  | cons x xs ih =>
    have hx : x < 256 ^ 8 := by
      have := h x (List.mem_cons_self x xs); norm_num at this ⊢; omega
    have hxs : ∀ y ∈ xs, y < 2 ^ 64 := fun y hy => h y (List.mem_cons_of_mem x hy)
    show chunks8 (pack_uint64 x ++ (xs.map pack_uint64).flatten) = x :: xs
    simp only [pack_uint64, natToLE]
    simp only [List.cons_append, List.nil_append, chunks8, ih hxs]
    have := leToNat_natToLE 8 x hx
    simp only [pack_uint64, natToLE] at this
    rw [this]
    simp [ih hxs]

theorem chunks4_flatten (v : List Nat) (h : ∀ x ∈ v, x < 2 ^ 32) :
    chunks4 ((v.map pack_float32).flatten) = v := by
  induction v with
  | nil => rfl
  | cons x xs ih =>
    have hx : x < 256 ^ 4 := by
      have := h x (List.mem_cons_self x xs); norm_num at this ⊢; omega
    have hxs : ∀ y ∈ xs, y < 2 ^ 32 := fun y hy => h y (List.mem_cons_of_mem x hy)
    show chunks4 (pack_float32 x ++ (xs.map pack_float32).flatten) = x :: xs
    simp only [pack_float32, natToLE]
    simp only [List.cons_append, List.nil_append, chunks4, ih hxs]
    have := leToNat_natToLE 4 x hx
    simp only [pack_float32, natToLE] at this
    rw [this]
    simp [ih hxs]

theorem unpack_uint64_vector_roundtrip (v : List Nat) (h : ∀ x ∈ v, x < 2 ^ 64) :
    unpack_uint64_vector ((v.map pack_uint64).flatten) = some v := by
  simp [unpack_uint64_vector, pack_uint64_vector_length, Nat.mul_mod_right,
    chunks8_flatten v h]
  have : ((v.map pack_uint64).flatten).length = 8 * v.length :=
    pack_uint64_vector_length v
  simp [pack_uint64_vector] at this
  simp [this, Nat.mul_mod_right, chunks8_flatten v h]

theorem unpack_float_vector_roundtrip (v : List Nat) (h : ∀ x ∈ v, x < 2 ^ 32) :
    unpack_float_vector ((v.map pack_float32).flatten) = some v := by
  have hl : ((v.map pack_float32).flatten).length = 4 * v.length :=
    float_bytes_length v
  simp [unpack_float_vector, hl, Nat.mul_mod_right, chunks4_flatten v h]

/-- Extracting a block from a concatenation: the slice `[n, n+k)` of
`X ++ (B ++ Y)` is exactly `B` when `X` spans the first `n` bytes and `B` the
next `k`. -/
theorem pySlice_block (X B Y : List Nat) (n k : Nat) (hX : X.length = n)
    (hB : B.length = k) : pySlice (X ++ (B ++ Y)) n (n + k) = B := by
  simp only [pySlice, Nat.add_sub_cancel_left]
  rw [List.drop_left' hX, List.take_left' hB]

theorem reshape_of_length (l : List Nat) (r c : Nat) (h : l.length = r * c) :
    reshape l r c = some (toRows r c l) := by
  simp [reshape, h]

/-- Decoding a `NEXT` payload laid out per the wire format — four u64 header
fields followed by the four data blocks, with arbitrary trailing bytes
`rest` — yields the batch with each block decoded in order.  Every claim
theorem about `__next__` decoding derives from this. -/
theorem graphLoaderNext_encoded (nn ne ns fs : Nat)
    (feats labels edges ids rest : List Nat)
    (hnn : nn < 2 ^ 64) (hne : ne < 2 ^ 64) (hns : ns < 2 ^ 64)
    (hfs : fs < 2 ^ 64)
    (hfl : feats.length = nn * fs) (hfv : ∀ x ∈ feats, x < 2 ^ 32)
    (hll : labels.length = nn) (hlv : ∀ x ∈ labels, x < 2 ^ 64)
    (hel : edges.length = 2 * ne) (hev : ∀ x ∈ edges, x < 2 ^ 64)
    (hil : ids.length = nn) (hiv : ∀ x ∈ ids, x < 2 ^ 64) :
    graphLoaderNext (pack_uint64 nn ++ (pack_uint64 ne ++ (pack_uint64 ns ++
        (pack_uint64 fs ++ ((feats.map pack_float32).flatten ++
        ((labels.map pack_uint64).flatten ++ ((edges.map pack_uint64).flatten ++
        ((ids.map pack_uint64).flatten ++ rest)))))))) =
      some ⟨toRows nn fs feats, labels, toRows 2 ne edges, ids, ns, fs⟩ := by
  have hFlen : ((feats.map pack_float32).flatten).length = 4 * nn * fs := by
    rw [float_bytes_length, hfl, Nat.mul_assoc]
  have hLlen : ((labels.map pack_uint64).flatten).length = 8 * nn := by
    have h8 : (pack_uint64_vector labels).length = 8 * labels.length :=
      pack_uint64_vector_length labels
    simpa [pack_uint64_vector, hll] using h8
  have hElen : ((edges.map pack_uint64).flatten).length = 8 * 2 * ne := by
    have h8 : (pack_uint64_vector edges).length = 8 * edges.length :=
      pack_uint64_vector_length edges
    simp only [pack_uint64_vector] at h8
    rw [h8, hel]; ring
  have hIlen : ((ids.map pack_uint64).flatten).length = 8 * nn := by
    have h8 : (pack_uint64_vector ids).length = 8 * ids.length :=
      pack_uint64_vector_length ids
    simpa [pack_uint64_vector, hil] using h8
  have h0 : pySlice (pack_uint64 nn ++ (pack_uint64 ne ++ (pack_uint64 ns ++
      (pack_uint64 fs ++ ((feats.map pack_float32).flatten ++
      ((labels.map pack_uint64).flatten ++ ((edges.map pack_uint64).flatten ++
      ((ids.map pack_uint64).flatten ++ rest)))))))) 0 8 = pack_uint64 nn := by
    simpa using pySlice_block [] (pack_uint64 nn) _ 0 8 rfl (pack_uint64_length nn)
  have h1 : pySlice (pack_uint64 nn ++ (pack_uint64 ne ++ (pack_uint64 ns ++
      (pack_uint64 fs ++ ((feats.map pack_float32).flatten ++
      ((labels.map pack_uint64).flatten ++ ((edges.map pack_uint64).flatten ++
      ((ids.map pack_uint64).flatten ++ rest)))))))) 8 16 = pack_uint64 ne := by
    simpa using pySlice_block (pack_uint64 nn) (pack_uint64 ne) _ 8 8
      (pack_uint64_length nn) (pack_uint64_length ne)
  have h2 : pySlice (pack_uint64 nn ++ (pack_uint64 ne ++ (pack_uint64 ns ++
      (pack_uint64 fs ++ ((feats.map pack_float32).flatten ++
      ((labels.map pack_uint64).flatten ++ ((edges.map pack_uint64).flatten ++
      ((ids.map pack_uint64).flatten ++ rest)))))))) 16 24 = pack_uint64 ns := by
    have hX : (pack_uint64 nn ++ pack_uint64 ne).length = 16 := by
      simp [pack_uint64_length]
    simpa [List.append_assoc] using
      pySlice_block (pack_uint64 nn ++ pack_uint64 ne) (pack_uint64 ns) _ 16 8
        hX (pack_uint64_length ns)
  have h3 : pySlice (pack_uint64 nn ++ (pack_uint64 ne ++ (pack_uint64 ns ++
      (pack_uint64 fs ++ ((feats.map pack_float32).flatten ++
      ((labels.map pack_uint64).flatten ++ ((edges.map pack_uint64).flatten ++
      ((ids.map pack_uint64).flatten ++ rest)))))))) 24 32 = pack_uint64 fs := by
    have hX : (pack_uint64 nn ++ pack_uint64 ne ++ pack_uint64 ns).length = 24 := by
      simp [pack_uint64_length]
    simpa [List.append_assoc] using
      pySlice_block (pack_uint64 nn ++ pack_uint64 ne ++ pack_uint64 ns)
        (pack_uint64 fs) _ 24 8 hX (pack_uint64_length fs)
  have h4 : pySlice (pack_uint64 nn ++ (pack_uint64 ne ++ (pack_uint64 ns ++
      (pack_uint64 fs ++ ((feats.map pack_float32).flatten ++
      ((labels.map pack_uint64).flatten ++ ((edges.map pack_uint64).flatten ++
      ((ids.map pack_uint64).flatten ++ rest)))))))) 32 (32 + 4 * nn * fs) =
      (feats.map pack_float32).flatten := by
    have hX : (pack_uint64 nn ++ pack_uint64 ne ++ pack_uint64 ns ++
        pack_uint64 fs).length = 32 := by
      simp [pack_uint64_length]
    simpa [List.append_assoc] using
      pySlice_block (pack_uint64 nn ++ pack_uint64 ne ++ pack_uint64 ns ++
        pack_uint64 fs) ((feats.map pack_float32).flatten) _ 32 (4 * nn * fs)
        hX hFlen
  have h5 : pySlice (pack_uint64 nn ++ (pack_uint64 ne ++ (pack_uint64 ns ++
      (pack_uint64 fs ++ ((feats.map pack_float32).flatten ++
      ((labels.map pack_uint64).flatten ++ ((edges.map pack_uint64).flatten ++
      ((ids.map pack_uint64).flatten ++ rest)))))))) (32 + 4 * nn * fs)
      (32 + 4 * nn * fs + 8 * nn) = (labels.map pack_uint64).flatten := by
    have hX : (pack_uint64 nn ++ pack_uint64 ne ++ pack_uint64 ns ++
        pack_uint64 fs ++ (feats.map pack_float32).flatten).length =
        32 + 4 * nn * fs := by
      simp [pack_uint64_length, hFlen]; ring
    simpa [List.append_assoc] using
      pySlice_block (pack_uint64 nn ++ pack_uint64 ne ++ pack_uint64 ns ++
        pack_uint64 fs ++ (feats.map pack_float32).flatten)
        ((labels.map pack_uint64).flatten) _ (32 + 4 * nn * fs) (8 * nn) hX hLlen
  have h6 : pySlice (pack_uint64 nn ++ (pack_uint64 ne ++ (pack_uint64 ns ++
      (pack_uint64 fs ++ ((feats.map pack_float32).flatten ++
      ((labels.map pack_uint64).flatten ++ ((edges.map pack_uint64).flatten ++
      ((ids.map pack_uint64).flatten ++ rest)))))))) (32 + 4 * nn * fs + 8 * nn)
      (32 + 4 * nn * fs + 8 * nn + 8 * 2 * ne) =
      (edges.map pack_uint64).flatten := by
    have hX : (pack_uint64 nn ++ pack_uint64 ne ++ pack_uint64 ns ++
        pack_uint64 fs ++ (feats.map pack_float32).flatten ++
        (labels.map pack_uint64).flatten).length =
        32 + 4 * nn * fs + 8 * nn := by
      simp [pack_uint64_length, hFlen, hLlen]; ring
    simpa [List.append_assoc] using
      pySlice_block (pack_uint64 nn ++ pack_uint64 ne ++ pack_uint64 ns ++
        pack_uint64 fs ++ (feats.map pack_float32).flatten ++
        (labels.map pack_uint64).flatten)
        ((edges.map pack_uint64).flatten) _ (32 + 4 * nn * fs + 8 * nn)
        (8 * 2 * ne) hX hElen
  have h7 : pySlice (pack_uint64 nn ++ (pack_uint64 ne ++ (pack_uint64 ns ++
      (pack_uint64 fs ++ ((feats.map pack_float32).flatten ++
      ((labels.map pack_uint64).flatten ++ ((edges.map pack_uint64).flatten ++
      ((ids.map pack_uint64).flatten ++ rest))))))))
      (32 + 4 * nn * fs + 8 * nn + 8 * 2 * ne)
      (32 + 4 * nn * fs + 8 * nn + 8 * 2 * ne + 8 * nn) =
      (ids.map pack_uint64).flatten := by
    have hX : (pack_uint64 nn ++ pack_uint64 ne ++ pack_uint64 ns ++
        pack_uint64 fs ++ (feats.map pack_float32).flatten ++
        (labels.map pack_uint64).flatten ++
        (edges.map pack_uint64).flatten).length =
        32 + 4 * nn * fs + 8 * nn + 8 * 2 * ne := by
      simp [pack_uint64_length, hFlen, hLlen, hElen]; ring
    simpa [List.append_assoc] using
      pySlice_block (pack_uint64 nn ++ pack_uint64 ne ++ pack_uint64 ns ++
        pack_uint64 fs ++ (feats.map pack_float32).flatten ++
        (labels.map pack_uint64).flatten ++ (edges.map pack_uint64).flatten)
        ((ids.map pack_uint64).flatten) _
        (32 + 4 * nn * fs + 8 * nn + 8 * 2 * ne) (8 * nn) hX hIlen
  simp only [graphLoaderNext, h0, h1, h2, h3, h4, h5, h6, h7,
    unpack_pack_uint64 nn hnn, unpack_pack_uint64 ne hne,
    unpack_pack_uint64 ns hns, unpack_pack_uint64 fs hfs,
    unpack_float_vector_roundtrip feats hfv,
    unpack_uint64_vector_roundtrip labels hlv,
    unpack_uint64_vector_roundtrip edges hev,
    unpack_uint64_vector_roundtrip ids hiv,
    reshape_of_length feats nn fs hfl, reshape_of_length edges 2 ne hel,
    Option.bind_eq_bind, Option.some_bind, Option.pure_def]

theorem toRows_length (r c : Nat) (l : List Nat) : (toRows r c l).length = r := by
  induction r generalizing l with
  | zero => rfl
  | succ r ih => simp [toRows, ih]

theorem toRows_row_length (r c : Nat) (l : List Nat) (h : l.length = r * c) :
    ∀ row ∈ toRows r c l, row.length = c := by
  induction r generalizing l with
  | zero => simp [toRows]
  | succ r ih =>
    intro row hrow
    simp only [toRows, List.mem_cons] at hrow
    rcases hrow with hrow | hrow
    · subst hrow
      have : c ≤ l.length := by rw [h, Nat.succ_mul]; omega
      simp [List.length_take, Nat.min_eq_left this]
    · exact ih (l.drop c) (by simp [List.length_drop, h, Nat.succ_mul]) row hrow

theorem toRows_flatten (r c : Nat) (l : List Nat) (h : l.length = r * c) :
    (toRows r c l).flatten = l := by
  induction r generalizing l with
  | zero =>
    simp [toRows]
    have : l.length = 0 := by rw [h]; ring
    exact List.eq_nil_of_length_eq_zero this
  | succ r ih =>
    simp only [toRows, List.flatten_cons]
    rw [ih (l.drop c) (by simp [List.length_drop, h, Nat.succ_mul]),
      List.take_append_drop]

/-! ## Claim theorems -/

/-- C1: on a normal-status `NEXT` reply, decoding reads, in order, the four
u64 header fields, then `num_nodes * feature_size` floats reshaped row-major
into `[num_nodes, feature_size]`, then `num_nodes` labels, then
`2 * num_edges` edge entries reshaped into `[2, num_edges]`, then
`num_nodes` node ids, each read consuming exactly its width; the returned
batch carries the header's `num_seeds` and `feature_size` verbatim. -/
theorem next_decode_wire_layout (nn ne ns fs : Nat)
    (feats labels edges ids : List Nat)
    (hnn : nn < 2 ^ 64) (hne : ne < 2 ^ 64) (hns : ns < 2 ^ 64)
    (hfs : fs < 2 ^ 64)
    (hfl : feats.length = nn * fs) (hfv : ∀ x ∈ feats, x < 2 ^ 32)
    (hll : labels.length = nn) (hlv : ∀ x ∈ labels, x < 2 ^ 64)
    (hel : edges.length = 2 * ne) (hev : ∀ x ∈ edges, x < 2 ^ 64)
    (hil : ids.length = nn) (hiv : ∀ x ∈ ids, x < 2 ^ 64) :
    graphLoaderNext (pack_uint64 nn ++ (pack_uint64 ne ++ (pack_uint64 ns ++
        (pack_uint64 fs ++ ((feats.map pack_float32).flatten ++
        ((labels.map pack_uint64).flatten ++ ((edges.map pack_uint64).flatten ++
        (ids.map pack_uint64).flatten))))))) =
      some ⟨toRows nn fs feats, labels, toRows 2 ne edges, ids, ns, fs⟩ ∧
    (toRows nn fs feats).length = nn ∧
    (∀ row ∈ toRows nn fs feats, row.length = fs) ∧
    (toRows nn fs feats).flatten = feats ∧
    (toRows 2 ne edges).length = 2 ∧
    (∀ row ∈ toRows 2 ne edges, row.length = ne) ∧
    (toRows 2 ne edges).flatten = edges := by
  refine ⟨?_, toRows_length nn fs feats, toRows_row_length nn fs feats hfl,
    toRows_flatten nn fs feats hfl, toRows_length 2 ne edges,
    toRows_row_length 2 ne edges hel, toRows_flatten 2 ne edges hel⟩
  have := graphLoaderNext_encoded nn ne ns fs feats labels edges ids []
    hnn hne hns hfs hfl hfv hll hlv hel hev hil hiv
  simpa using this

/-- C1 witness: a concrete payload with `num_nodes = 1`, `num_edges = 1`,
`num_seeds = 1`, `feature_size = 2`. -/
theorem next_decode_wire_layout_witness :
    graphLoaderNext (pack_uint64 1 ++ (pack_uint64 1 ++ (pack_uint64 1 ++
        (pack_uint64 2 ++ (([10, 20].map pack_float32).flatten ++
        (([7].map pack_uint64).flatten ++ (([0, 0].map pack_uint64).flatten ++
        ([99].map pack_uint64).flatten))))))) =
      some ⟨toRows 1 2 [10, 20], [7], toRows 2 1 [0, 0], [99], 1, 2⟩ ∧
    (toRows 1 2 [10, 20]).length = 1 ∧
    (∀ row ∈ toRows 1 2 [10, 20], row.length = 2) ∧
    (toRows 1 2 [10, 20]).flatten = [10, 20] ∧
    (toRows 2 1 [0, 0]).length = 2 ∧
    (∀ row ∈ toRows 2 1 [0, 0], row.length = 1) ∧
    (toRows 2 1 [0, 0]).flatten = [0, 0] :=
  next_decode_wire_layout 1 1 1 2 [10, 20] [7] [0, 0] [99]
    (by norm_num) (by norm_num) (by norm_num) (by norm_num)
    (by decide) (by decide) (by decide) (by decide)
    (by decide) (by decide) (by decide) (by decide)

/-- C2 counterexample: a 33-byte payload whose header declares 32 bytes
(`num_nodes = num_edges = feature_size = 0`) is not rejected —
`GraphLoader.__next__` decodes it successfully, silently ignoring the
trailing byte. -/
theorem next_no_exhaustion_check_counterexample :
    (List.replicate 33 0).length ≠ 32 + (4 * 0 * 0 + 8 * 0 + 16 * 0 + 8 * 0) ∧
    graphLoaderNext (List.replicate 33 0) =
      some ⟨[], [], [[], []], [], 0, 0⟩ := by
  constructor
  · decide
  · decide

/-- C2 (amended): `GraphLoader.__next__` performs no exhaustion check:
a payload carrying trailing bytes beyond its header-declared size decodes
to exactly the same batch as the exact payload, the excess silently
ignored rather than rejected.  (Missing bytes surface as decoding failures
only when they leave some slice ill-sized for its decoder or a reshape.) -/
theorem next_trailing_bytes_ignored (nn ne ns fs : Nat)
    (feats labels edges ids extra : List Nat)
    (hx : extra ≠ [])
    (hnn : nn < 2 ^ 64) (hne : ne < 2 ^ 64) (hns : ns < 2 ^ 64)
    (hfs : fs < 2 ^ 64)
    (hfl : feats.length = nn * fs) (hfv : ∀ x ∈ feats, x < 2 ^ 32)
    (hll : labels.length = nn) (hlv : ∀ x ∈ labels, x < 2 ^ 64)
    (hel : edges.length = 2 * ne) (hev : ∀ x ∈ edges, x < 2 ^ 64)
    (hil : ids.length = nn) (hiv : ∀ x ∈ ids, x < 2 ^ 64) :
    graphLoaderNext (pack_uint64 nn ++ (pack_uint64 ne ++ (pack_uint64 ns ++
        (pack_uint64 fs ++ ((feats.map pack_float32).flatten ++
        ((labels.map pack_uint64).flatten ++ ((edges.map pack_uint64).flatten ++
        ((ids.map pack_uint64).flatten ++ extra)))))))) =
      graphLoaderNext (pack_uint64 nn ++ (pack_uint64 ne ++ (pack_uint64 ns ++
        (pack_uint64 fs ++ ((feats.map pack_float32).flatten ++
        ((labels.map pack_uint64).flatten ++ ((edges.map pack_uint64).flatten ++
        (ids.map pack_uint64).flatten))))))) ∧
    graphLoaderNext (pack_uint64 nn ++ (pack_uint64 ne ++ (pack_uint64 ns ++
        (pack_uint64 fs ++ ((feats.map pack_float32).flatten ++
        ((labels.map pack_uint64).flatten ++ ((edges.map pack_uint64).flatten ++
        ((ids.map pack_uint64).flatten ++ extra)))))))) =
      some ⟨toRows nn fs feats, labels, toRows 2 ne edges, ids, ns, fs⟩ := by
  have h1 := graphLoaderNext_encoded nn ne ns fs feats labels edges ids extra
    hnn hne hns hfs hfl hfv hll hlv hel hev hil hiv
  have h2 := graphLoaderNext_encoded nn ne ns fs feats labels edges ids []
    hnn hne hns hfs hfl hfv hll hlv hel hev hil hiv
  constructor
  · rw [h1]; simpa using h2.symm
  · exact h1

/-- C2 amended-claim witness: one trailing zero byte after an exact
empty-batch payload. -/
theorem next_trailing_bytes_ignored_witness :
    graphLoaderNext (pack_uint64 0 ++ (pack_uint64 0 ++ (pack_uint64 0 ++
        (pack_uint64 0 ++ (([].map pack_float32).flatten ++
        (([].map pack_uint64).flatten ++ (([].map pack_uint64).flatten ++
        (([].map pack_uint64).flatten ++ [0])))))))) =
      graphLoaderNext (pack_uint64 0 ++ (pack_uint64 0 ++ (pack_uint64 0 ++
        (pack_uint64 0 ++ (([].map pack_float32).flatten ++
        (([].map pack_uint64).flatten ++ (([].map pack_uint64).flatten ++
        ([].map pack_uint64).flatten))))))) ∧
    graphLoaderNext (pack_uint64 0 ++ (pack_uint64 0 ++ (pack_uint64 0 ++
        (pack_uint64 0 ++ (([].map pack_float32).flatten ++
        (([].map pack_uint64).flatten ++ (([].map pack_uint64).flatten ++
        (([].map pack_uint64).flatten ++ [0])))))))) =
      some ⟨toRows 0 0 [], [], toRows 2 0 [], [], 0, 0⟩ :=
  next_trailing_bytes_ignored 0 0 0 0 [] [] [] [] [0]
    (by decide) (by norm_num) (by norm_num) (by norm_num) (by norm_num)
    (by decide) (by decide) (by decide) (by decide)
    (by decide) (by decide) (by decide) (by decide)

/-- C3: on a closed session, `size` (hence `len`), `__iter__` and `__next__`
fail with an invalid-state error and send no request; `is_closed` is a pure
total state query on every session. -/
theorem closed_session_ops_fail (s : SessionState) (h : s.closed = true) :
    (∀ status payload, GraphLoader_next s status payload =
      ⟨[], .error .invalidState, s⟩) ∧
    (∀ status payload, GraphLoader_iter s status payload =
      ⟨[], .error .invalidState, s⟩) ∧
    GraphLoader_size s = ⟨[], .error .invalidState, s⟩ ∧
    GraphLoader_len s = ⟨[], .error .invalidState, s⟩ ∧
    (∀ s2 : SessionState, GraphLoader_is_closed s2 = s2.closed) := by
  refine ⟨fun status payload => ?_, fun status payload => ?_, ?_, ?_,
    fun s2 => rfl⟩ <;>
    simp [GraphLoader_next, GraphLoader_iter, GraphLoader_size,
      GraphLoader_len, check_closed, h]

/-- C3 witness: the closed state reached right after base construction. -/
theorem closed_session_ops_fail_witness :
    (∀ status payload, GraphLoader_next ⟨none, none, true⟩ status payload =
      ⟨[], .error .invalidState, ⟨none, none, true⟩⟩) ∧
    (∀ status payload, GraphLoader_iter ⟨none, none, true⟩ status payload =
      ⟨[], .error .invalidState, ⟨none, none, true⟩⟩) ∧
    GraphLoader_size ⟨none, none, true⟩ =
      ⟨[], .error .invalidState, ⟨none, none, true⟩⟩ ∧
    GraphLoader_len ⟨none, none, true⟩ =
      ⟨[], .error .invalidState, ⟨none, none, true⟩⟩ ∧
    (∀ s2 : SessionState, GraphLoader_is_closed s2 = s2.closed) :=
  closed_session_ops_fail ⟨none, none, true⟩ rfl

/-- C5: each `num_neighbors` entry `n < 0` is stored as `2^64 - 1` and each
`n ≥ 0` is stored unchanged, position by position. -/
theorem num_neighbors_sentinel (name : List Nat) (batch_size : Int)
    (num_neighbors : List Int) (h1 : 1 ≤ batch_size) (h2 : num_neighbors ≠ []) :
    ∃ cfg s, GraphLoader_init name batch_size num_neighbors = .ok (cfg, s) ∧
      cfg.num_neighbors.length = num_neighbors.length ∧
      ∀ i, i < num_neighbors.length →
        (num_neighbors.getD i 0 < 0 → cfg.num_neighbors.getD i 0 = 2 ^ 64 - 1) ∧
        (0 ≤ num_neighbors.getD i 0 →
          cfg.num_neighbors.getD i 0 = (num_neighbors.getD i 0).toNat) := by
  have hbs : ¬ batch_size < 1 := by omega
  have hlen : ¬ num_neighbors.length = 0 := by
    simpa [List.length_eq_zero] using h2
  refine ⟨⟨name, batch_size.toNat, num_neighbors.map normNeighbor⟩,
    ⟨none, none, true⟩, by simp [GraphLoader_init, hbs, hlen], by simp, ?_⟩
  intro i hi
  have hmap : (num_neighbors.map normNeighbor).getD i 0 =
      normNeighbor (num_neighbors.getD i 0) := by
    rw [List.getD_eq_getElem _ _ (by simpa using hi), List.getD_eq_getElem _ _ hi]
    simp
  constructor
  · intro hneg
    rw [hmap]
    simp only [normNeighbor, if_pos hneg]
  · intro hpos
    rw [hmap]
    simp only [normNeighbor,
      if_neg (by omega : ¬ num_neighbors.getD i 0 < 0)]

/-- C5 witness: `num_neighbors = [5, -1]` is stored as `[5, 2^64 - 1]`. -/
theorem num_neighbors_sentinel_witness :
    (∃ cfg s, GraphLoader_init [] 2 [5, -1] = .ok (cfg, s) ∧
      cfg.num_neighbors.length = ([5, -1] : List Int).length ∧
      ∀ i, i < ([5, -1] : List Int).length →
        (([5, -1] : List Int).getD i 0 < 0 →
          cfg.num_neighbors.getD i 0 = 2 ^ 64 - 1) ∧
        (0 ≤ ([5, -1] : List Int).getD i 0 →
          cfg.num_neighbors.getD i 0 = (([5, -1] : List Int).getD i 0).toNat)) ∧
    GraphLoader_init [] 2 [5, -1] =
      .ok (⟨[], 2, [5, 2 ^ 64 - 1]⟩, ⟨none, none, true⟩) :=
  ⟨num_neighbors_sentinel [] 2 [5, -1] (by norm_num) (by decide), by rfl⟩

/-- C6: each variant's creation message matches the specified wire layout
exactly, and every creation payload starts with `batch_size` (u64) right
after the one-byte opcode. -/
theorem creation_message_layouts (cfg : LoaderConfig) (num_seeds : Nat)
    (seed_ids : List Nat) :
    evalNewMsg cfg = specEvalNewLayout RT_EVAL_GRAPH_LOADER_NEW
      cfg.batch_size cfg.num_neighbors cfg.tensor_store_name ∧
    samplingNewMsg cfg num_seeds = specSamplingNewLayout
      RT_SAMPLING_GRAPH_LOADER_NEW cfg.batch_size num_seeds
      cfg.num_neighbors cfg.tensor_store_name ∧
    trainNewMsg cfg seed_ids = specTrainNewLayout RT_TRAIN_GRAPH_LOADER_NEW
      cfg.batch_size cfg.num_neighbors cfg.tensor_store_name seed_ids ∧
    (evalNewMsg cfg).take 9 =
      pack_byte RT_EVAL_GRAPH_LOADER_NEW ++ pack_uint64 cfg.batch_size ∧
    (samplingNewMsg cfg num_seeds).take 9 =
      pack_byte RT_SAMPLING_GRAPH_LOADER_NEW ++ pack_uint64 cfg.batch_size ∧
    (trainNewMsg cfg seed_ids).take 9 =
      pack_byte RT_TRAIN_GRAPH_LOADER_NEW ++ pack_uint64 cfg.batch_size := by
  have hlen : ∀ op : Nat, (pack_byte op ++ pack_uint64 cfg.batch_size).length = 9 := by
    intro op; simp [pack_byte, pack_uint64_length]
  refine ⟨?_, ?_, ?_, ?_, ?_, ?_⟩
  · simp [evalNewMsg, specEvalNewLayout, List.append_assoc]
  · simp [samplingNewMsg, specSamplingNewLayout, List.append_assoc]
  · simp [trainNewMsg, specTrainNewLayout, List.append_assoc]
  · rw [show evalNewMsg cfg = (pack_byte RT_EVAL_GRAPH_LOADER_NEW ++
      pack_uint64 cfg.batch_size) ++ (pack_uint64 cfg.num_neighbors.length ++
      (pack_uint64 cfg.tensor_store_name.length ++
      (pack_uint64_vector cfg.num_neighbors ++
      pack_string cfg.tensor_store_name))) from by
        simp [evalNewMsg, List.append_assoc]]
    exact List.take_left' (hlen _)
  · rw [show samplingNewMsg cfg num_seeds =
      (pack_byte RT_SAMPLING_GRAPH_LOADER_NEW ++ pack_uint64 cfg.batch_size) ++
      (pack_uint64 num_seeds ++ (pack_uint64 cfg.num_neighbors.length ++
      (pack_uint64 cfg.tensor_store_name.length ++
      (pack_uint64_vector cfg.num_neighbors ++
      pack_string cfg.tensor_store_name)))) from by
        simp [samplingNewMsg, List.append_assoc]]
    exact List.take_left' (hlen _)
  · rw [show trainNewMsg cfg seed_ids =
      (pack_byte RT_TRAIN_GRAPH_LOADER_NEW ++ pack_uint64 cfg.batch_size) ++
      (pack_uint64 cfg.num_neighbors.length ++
      (pack_uint64 cfg.tensor_store_name.length ++
      (pack_uint64 seed_ids.length ++ (pack_uint64_vector cfg.num_neighbors ++
      (pack_string cfg.tensor_store_name ++ pack_uint64_vector seed_ids))))) from by
        simp [trainNewMsg, List.append_assoc]]
    exact List.take_left' (hlen _)

/-- C7: every `NEXT`, `BEGIN` and `CLOSE` request sent by an open session is
exactly a one-byte opcode followed by the u64 session id — nine bytes, nothing
else. -/
theorem control_message_format (s : SessionState) (id : Nat)
    (status : Nat) (payload : List Nat)
    (hopen : s.closed = false) (hid : s.graph_loader_id = some id) :
    (GraphLoader_next s status payload).sent =
      [pack_byte RT_GRAPH_LOADER_NEXT ++ pack_uint64 id] ∧
    (GraphLoader_iter s status payload).sent =
      [pack_byte RT_GRAPH_LOADER_BEGIN ++ pack_uint64 id] ∧
    (GraphLoader_close s status payload).sent =
      [pack_byte RT_GRAPH_LOADER_CLOSE ++ pack_uint64 id] ∧
    (pack_byte RT_GRAPH_LOADER_NEXT ++ pack_uint64 id).length = 9 ∧
    (pack_byte RT_GRAPH_LOADER_BEGIN ++ pack_uint64 id).length = 9 ∧
    (pack_byte RT_GRAPH_LOADER_CLOSE ++ pack_uint64 id).length = 9 := by
  refine ⟨?_, ?_, ?_, ?_, ?_, ?_⟩
  · simp only [GraphLoader_next, check_closed, hopen, Bool.false_eq_true,
      if_false]
    cases recvCheck status payload with
    | error e => simp [nextMsg, hid]
    | ok data =>
      by_cases hst : status = SC_END_OF_ITERATION
      · simp [hst, nextMsg, hid]
      · simp only [hst, if_false]
        cases graphLoaderNext data <;> simp [nextMsg, hid]
  · simp only [GraphLoader_iter, GraphLoader_begin, check_closed, hopen,
      Bool.false_eq_true, if_false]
    cases recvCheck status payload <;> simp [beginMsg, hid]
  · simp only [GraphLoader_close, hopen, Bool.false_eq_true, if_false,
      GraphLoader_close_inner]
    cases recvCheck status payload <;> simp [closeMsg, hid]
  · simp [pack_byte, pack_uint64_length]
  · simp [pack_byte, pack_uint64_length]
  · simp [pack_byte, pack_uint64_length]

/-- C7 witness: an open session with id 5. -/
theorem control_message_format_witness :
    (GraphLoader_next ⟨some 5, some 4, false⟩ SC_SUCCESS []).sent =
      [pack_byte RT_GRAPH_LOADER_NEXT ++ pack_uint64 5] ∧
    (GraphLoader_iter ⟨some 5, some 4, false⟩ SC_SUCCESS []).sent =
      [pack_byte RT_GRAPH_LOADER_BEGIN ++ pack_uint64 5] ∧
    (GraphLoader_close ⟨some 5, some 4, false⟩ SC_SUCCESS []).sent =
      [pack_byte RT_GRAPH_LOADER_CLOSE ++ pack_uint64 5] ∧
    (pack_byte RT_GRAPH_LOADER_NEXT ++ pack_uint64 5).length = 9 ∧
    (pack_byte RT_GRAPH_LOADER_BEGIN ++ pack_uint64 5).length = 9 ∧
    (pack_byte RT_GRAPH_LOADER_CLOSE ++ pack_uint64 5).length = 9 :=
  control_message_format ⟨some 5, some 4, false⟩ 5 SC_SUCCESS [] rfl rfl

/-- C8: invalid construction arguments — `batch_size < 1`, empty
`num_neighbors`, `num_seeds < 1` (Sampling), empty `seed_ids` (Train) — raise
a `ValueError` and send no creation message. -/
theorem constructor_validation (name : List Nat) (batch_size : Int)
    (num_neighbors : List Int) (num_seeds : Int) (seed_ids : List Nat)
    (status : Nat) (payload : List Nat) :
    ((batch_size < 1 ∨ num_neighbors = []) →
      EvalGraphLoader_mk name batch_size num_neighbors status payload =
        ([], .error .valueError)) ∧
    ((batch_size < 1 ∨ num_neighbors = [] ∨ num_seeds < 1) →
      SamplingGraphLoader_mk name batch_size num_neighbors num_seeds
        status payload = ([], .error .valueError)) ∧
    ((batch_size < 1 ∨ num_neighbors = [] ∨ seed_ids = []) →
      TrainGraphLoader_mk name batch_size num_neighbors seed_ids
        status payload = ([], .error .valueError)) := by
  have hinit : (batch_size < 1 ∨ num_neighbors = []) →
      GraphLoader_init name batch_size num_neighbors = .error .valueError := by
    rintro (h | h)
    · simp [GraphLoader_init, h]
    · by_cases hbs : batch_size < 1 <;> simp [GraphLoader_init, hbs, h]
  refine ⟨?_, ?_, ?_⟩
  · intro h
    simp [EvalGraphLoader_mk, hinit h]
  · rintro (h | h | h)
    · by_cases hns : num_seeds < 1 <;>
        simp [SamplingGraphLoader_mk, hns, hinit (Or.inl h)]
    · by_cases hns : num_seeds < 1 <;>
        simp [SamplingGraphLoader_mk, hns, hinit (Or.inr h)]
    · simp [SamplingGraphLoader_mk, h]
  · rintro (h | h | h)
    · simp [TrainGraphLoader_mk, hinit (Or.inl h)]
    · simp [TrainGraphLoader_mk, hinit (Or.inr h)]
    · rcases hr : GraphLoader_init name batch_size num_neighbors with e | ⟨cfg, s⟩
      · have he : e = .valueError := by
          by_cases hbs : batch_size < 1
          · simp [GraphLoader_init, hbs] at hr
            exact hr.symm
          · by_cases hnn : num_neighbors.length = 0
            · simp [GraphLoader_init, hbs, hnn] at hr
              exact hr.symm
            · simp [GraphLoader_init, hbs, hnn] at hr
        rw [he] at hr
        simp [TrainGraphLoader_mk, hr]
      · simp [TrainGraphLoader_mk, hr, h]

/-- C8 witness: `batch_size = 0` (Eval), `num_seeds = 0` (Sampling) and empty
`seed_ids` (Train) each fail with `ValueError` before any message is sent. -/
theorem constructor_validation_witness :
    EvalGraphLoader_mk [] 0 [5] SC_SUCCESS [] = ([], .error .valueError) ∧
    SamplingGraphLoader_mk [] 2 [5] 0 SC_SUCCESS [] =
      ([], .error .valueError) ∧
    TrainGraphLoader_mk [] 2 [5] [] SC_SUCCESS [] =
      ([], .error .valueError) :=
  ⟨(constructor_validation [] 0 [5] 0 [] SC_SUCCESS []).1
      (Or.inl (by norm_num)),
   (constructor_validation [] 2 [5] 0 [] SC_SUCCESS []).2.1
      (Or.inr (Or.inr (by norm_num))),
   (constructor_validation [] 2 [5] 0 [] SC_SUCCESS []).2.2
      (Or.inr (Or.inr rfl))⟩

theorem loaderNew_eq_error (msg : List Nat) (s : SessionState) (status : Nat)
    (payload : List Nat) (e : LoaderError)
    (hr : recvCheck status payload = .error e) :
    loaderNew msg s status payload = ⟨[msg], .error e, s⟩ := by
  unfold loaderNew; rw [hr]

theorem loaderNew_eq_ok (msg : List Nat) (s : SessionState) (status : Nat)
    (payload data : List Nat) (hr : recvCheck status payload = .ok data) :
    loaderNew msg s status payload =
      ⟨[msg], (loaderNewParse s data).2, (loaderNewParse s data).1⟩ := by
  unfold loaderNew; rw [hr]

theorem loaderNewParse_eq_none (s : SessionState) (data : List Nat)
    (h1 : unpack_uint64 (pySlice data 0 8) = none) :
    loaderNewParse s data = (s, .error .decodeError) := by
  unfold loaderNewParse; rw [h1]

theorem loaderNewParse_eq_some_none (s : SessionState) (data : List Nat)
    (id : Nat) (h1 : unpack_uint64 (pySlice data 0 8) = some id)
    (h2 : unpack_uint64 (pySlice data 8 16) = none) :
    loaderNewParse s data =
      ({ s with graph_loader_id := some id }, .error .decodeError) := by
  unfold loaderNewParse; rw [h1, h2]

theorem loaderNewParse_eq_some_some (s : SessionState) (data : List Nat)
    (id sz : Nat) (h1 : unpack_uint64 (pySlice data 0 8) = some id)
    (h2 : unpack_uint64 (pySlice data 8 16) = some sz) :
    loaderNewParse s data = (⟨some id, some sz, false⟩, .ok ()) := by
  unfold loaderNewParse; rw [h1, h2]

theorem loaderNew_ok_closed (msg : List Nat) (s : SessionState) (status : Nat)
    (payload : List Nat) (h : (loaderNew msg s status payload).out = .ok ()) :
    (loaderNew msg s status payload).state.closed = false := by
  cases hr : recvCheck status payload with
  | error e => rw [loaderNew_eq_error msg s status payload e hr] at h; simp at h
  | ok data =>
    rw [loaderNew_eq_ok msg s status payload data hr] at h ⊢
    cases h1 : unpack_uint64 (pySlice data 0 8) with
    | none => rw [loaderNewParse_eq_none s data h1] at h; simp at h
    | some id =>
      cases h2 : unpack_uint64 (pySlice data 8 16) with
      | none =>
        rw [loaderNewParse_eq_some_none s data id h1 h2] at h; simp at h
      | some sz => rw [loaderNewParse_eq_some_some s data id sz h1 h2]

theorem loaderNew_error_closed (msg : List Nat) (s : SessionState)
    (status : Nat) (payload : List Nat) (h : s.closed = true) (e : LoaderError)
    (ho : (loaderNew msg s status payload).out = .error e) :
    (loaderNew msg s status payload).state.closed = true := by
  cases hr : recvCheck status payload with
  | error e2 => rw [loaderNew_eq_error msg s status payload e2 hr]; exact h
  | ok data =>
    rw [loaderNew_eq_ok msg s status payload data hr] at ho ⊢
    cases h1 : unpack_uint64 (pySlice data 0 8) with
    | none => rw [loaderNewParse_eq_none s data h1]; exact h
    | some id =>
      cases h2 : unpack_uint64 (pySlice data 8 16) with
      | none => rw [loaderNewParse_eq_some_none s data id h1 h2]; exact h
      | some sz =>
        rw [loaderNewParse_eq_some_some s data id sz h1 h2] at ho
        simp at ho

theorem mkResult_ok_closed (msg : List Nat) (cfg0 : LoaderConfig)
    (s0 : SessionState) (status : Nat) (payload : List Nat)
    (sent : List (List Nat)) (cfg : LoaderConfig) (sess : SessionState)
    (h : ((loaderNew msg s0 status payload).sent,
          (loaderNew msg s0 status payload).out.map
            fun _ => (cfg0, (loaderNew msg s0 status payload).state)) =
         (sent, Except.ok (cfg, sess))) :
    sess.closed = false := by
  have hout := congrArg Prod.snd h
  simp only at hout
  cases ho : (loaderNew msg s0 status payload).out with
  | error e => rw [ho] at hout; simp [Except.map] at hout
  | ok u =>
    rw [ho] at hout
    simp only [Except.map, Except.ok.injEq, Prod.mk.injEq] at hout
    obtain ⟨-, hstate⟩ := hout
    have hc := loaderNew_ok_closed msg s0 status payload (by cases u; exact ho)
    rw [hstate] at hc
    exact hc

/-- C4: `is_closed` is false immediately after successful construction of any
variant and true after `close`; `close` on an open session sends
`CLOSE ∥ session_id`, consumes the reply and clears the fields; `close` on a
closed session is a no-op that sends nothing; and no operation reopens a
closed session. -/
theorem close_lifecycle :
    (∀ name batch_size num_neighbors status payload sent cfg sess,
      EvalGraphLoader_mk name batch_size num_neighbors status payload =
        (sent, .ok (cfg, sess)) →
      sess.closed = false ∧ GraphLoader_is_closed sess = false) ∧
    (∀ name batch_size num_neighbors num_seeds status payload sent cfg sess,
      SamplingGraphLoader_mk name batch_size num_neighbors num_seeds
        status payload = (sent, .ok (cfg, sess)) →
      sess.closed = false) ∧
    (∀ name batch_size num_neighbors seed_ids status payload sent cfg sess,
      TrainGraphLoader_mk name batch_size num_neighbors seed_ids
        status payload = (sent, .ok (cfg, sess)) →
      sess.closed = false) ∧
    (∀ s id payload, s.closed = false → s.graph_loader_id = some id →
      GraphLoader_close s SC_SUCCESS payload =
        ⟨[pack_byte RT_GRAPH_LOADER_CLOSE ++ pack_uint64 id], .ok (),
          ⟨none, none, true⟩⟩) ∧
    (∀ s status payload, s.closed = true →
      GraphLoader_close s status payload = ⟨[], .ok (), s⟩) ∧
    (∀ s status payload status2 payload2, s.closed = true →
      GraphLoader_is_closed (GraphLoader_close s status payload).state = true ∧
      (GraphLoader_close (GraphLoader_close s status payload).state
        status2 payload2).state = s) ∧
    (∀ s status payload, s.closed = true →
      (GraphLoader_next s status payload).state = s ∧
      (GraphLoader_iter s status payload).state = s ∧
      (GraphLoader_size s).state = s) := by
  have hclosed_noop : ∀ (s : SessionState) status payload, s.closed = true →
      GraphLoader_close s status payload = ⟨[], .ok (), s⟩ := by
    intro s status payload h
    simp [GraphLoader_close, h]
  refine ⟨?_, ?_, ?_, ?_, hclosed_noop, ?_, ?_⟩
  · intro name batch_size num_neighbors status payload sent cfg sess hmk
    unfold EvalGraphLoader_mk at hmk
    rcases hinit : GraphLoader_init name batch_size num_neighbors with e | ⟨cfg0, s0⟩ <;>
      rw [hinit] at hmk
    · simp at hmk
    · have := mkResult_ok_closed (evalNewMsg cfg0) cfg0 s0 status payload
        sent cfg sess (by simpa using hmk)
      exact ⟨this, this⟩
  · intro name batch_size num_neighbors num_seeds status payload sent cfg sess hmk
    unfold SamplingGraphLoader_mk at hmk
    by_cases hns : num_seeds < 1
    · simp [hns] at hmk
    · rw [if_neg hns] at hmk
      rcases hinit : GraphLoader_init name batch_size num_neighbors with e | ⟨cfg0, s0⟩ <;>
        rw [hinit] at hmk
      · simp at hmk
      · exact mkResult_ok_closed (samplingNewMsg cfg0 num_seeds.toNat) cfg0 s0
          status payload sent cfg sess (by simpa using hmk)
  · intro name batch_size num_neighbors seed_ids status payload sent cfg sess hmk
    unfold TrainGraphLoader_mk at hmk
    rcases hinit : GraphLoader_init name batch_size num_neighbors with e | ⟨cfg0, s0⟩ <;>
      rw [hinit] at hmk
    · simp at hmk
    · dsimp only at hmk
      by_cases hs : seed_ids.length = 0
      · simp [hs] at hmk
      · rw [if_neg hs] at hmk
        exact mkResult_ok_closed (trainNewMsg cfg0 seed_ids) cfg0 s0
          status payload sent cfg sess (by simpa using hmk)
  · intro s id payload hopen hid
    simp [GraphLoader_close, hopen, GraphLoader_close_inner, recvCheck,
      SC_SUCCESS, closeMsg, hid]
  · intro s status payload status2 payload2 h
    rw [hclosed_noop s status payload h]
    exact ⟨h, by rw [hclosed_noop s status2 payload2 h]⟩
  · intro s status payload h
    simp [GraphLoader_next, GraphLoader_iter, GraphLoader_size, check_closed, h]

/-- C4 witness: a concrete open session with id 7 closes to the cleared state,
and repeated `close` on the closed state is a no-op. -/
theorem close_lifecycle_witness :
    GraphLoader_close ⟨some 7, some 3, false⟩ SC_SUCCESS [] =
      ⟨[pack_byte RT_GRAPH_LOADER_CLOSE ++ pack_uint64 7], .ok (),
        ⟨none, none, true⟩⟩ ∧
    GraphLoader_close ⟨none, none, true⟩ SC_SUCCESS [] =
      ⟨[], .ok (), ⟨none, none, true⟩⟩ ∧
    GraphLoader_is_closed
      (GraphLoader_close ⟨none, none, true⟩ SC_SUCCESS []).state = true :=
  ⟨close_lifecycle.2.2.2.1 ⟨some 7, some 3, false⟩ 7 [] rfl rfl,
   close_lifecycle.2.2.2.2.1 ⟨none, none, true⟩ SC_SUCCESS [] rfl,
   (close_lifecycle.2.2.2.2.2.1 ⟨none, none, true⟩ SC_SUCCESS [] SC_SUCCESS []
      rfl).1⟩

/-- C9: the reply status of `next` is dispatched three ways —
`END_OF_ITERATION` yields the `StopIteration` signal (an outcome distinct from
every batch, never an error), normal completion yields the decoded batch, and
any other status code is propagated as a failure carrying that code, never
decoded. -/
theorem next_status_dispatch (s : SessionState) (payload : List Nat)
    (hopen : s.closed = false) :
    (GraphLoader_next s SC_END_OF_ITERATION payload).out =
      .ok .stopIteration ∧
    (∀ g, graphLoaderNext payload = some g →
      (GraphLoader_next s SC_SUCCESS payload).out = .ok (.batch g)) ∧
    (∀ status, status ≠ SC_SUCCESS → status ≠ SC_END_OF_ITERATION →
      (GraphLoader_next s status payload).out =
        .error (.serverError status)) ∧
    (∀ g, NextOutcome.stopIteration ≠ NextOutcome.batch g) := by
  refine ⟨?_, ?_, ?_, fun g => by simp⟩
  · simp [GraphLoader_next, check_closed, hopen, recvCheck,
      SC_END_OF_ITERATION, SC_SUCCESS]
  · intro g hg
    simp [GraphLoader_next, check_closed, hopen, recvCheck, SC_SUCCESS,
      SC_END_OF_ITERATION, hg]
  · intro status h1 h2
    simp [GraphLoader_next, check_closed, hopen, recvCheck, h1, h2]

/-- C9 witness: an open session; the exact 32-zero-byte payload decodes to the
empty batch on normal status, `END_OF_ITERATION` stops, and status 7 is
propagated. -/
theorem next_status_dispatch_witness :
    (GraphLoader_next ⟨some 5, some 4, false⟩ SC_END_OF_ITERATION
      (List.replicate 32 0)).out = .ok .stopIteration ∧
    (GraphLoader_next ⟨some 5, some 4, false⟩ SC_SUCCESS
      (List.replicate 32 0)).out =
      .ok (.batch ⟨[], [], [[], []], [], 0, 0⟩) ∧
    (GraphLoader_next ⟨some 5, some 4, false⟩ 7
      (List.replicate 32 0)).out = .error (.serverError 7) :=
  ⟨(next_status_dispatch ⟨some 5, some 4, false⟩ (List.replicate 32 0) rfl).1,
   (next_status_dispatch ⟨some 5, some 4, false⟩ (List.replicate 32 0) rfl).2.1
      ⟨[], [], [[], []], [], 0, 0⟩ (by decide),
   (next_status_dispatch ⟨some 5, some 4, false⟩ (List.replicate 32 0) rfl).2.2.1
      7 (by decide) (by decide)⟩

/-- C10: the base constructor initializes the instance closed with cleared
fields; a `_new` round-trip that fails leaves the instance closed, reporting
`is_closed() = true`, with `close()` a send-nothing no-op on it; only a fully
successful reply parse opens the session. -/
theorem construction_failure_stays_closed :
    (∀ name batch_size num_neighbors cfg s,
      GraphLoader_init name batch_size num_neighbors = .ok (cfg, s) →
      s = ⟨none, none, true⟩ ∧ GraphLoader_is_closed s = true) ∧
    (∀ msg s status payload e, s.closed = true →
      (loaderNew msg s status payload).out = .error e →
      (loaderNew msg s status payload).state.closed = true ∧
      GraphLoader_is_closed (loaderNew msg s status payload).state = true ∧
      (∀ status2 payload2,
        GraphLoader_close (loaderNew msg s status payload).state
          status2 payload2 =
        ⟨[], .ok (), (loaderNew msg s status payload).state⟩)) ∧
    (∀ msg s status payload,
      (loaderNew msg s status payload).out = .ok () →
      (loaderNew msg s status payload).state.closed = false) := by
  refine ⟨?_, ?_, loaderNew_ok_closed⟩
  · intro name batch_size num_neighbors cfg s hinit
    unfold GraphLoader_init at hinit
    by_cases hbs : batch_size < 1
    · simp [hbs] at hinit
    · by_cases hnn : num_neighbors.length = 0
      · simp [hbs, hnn] at hinit
      · simp [hbs, hnn] at hinit
        exact ⟨hinit.2.symm, by rw [← hinit.2]; rfl⟩
  · intro msg s status payload e h ho
    have hc := loaderNew_error_closed msg s status payload h e ho
    exact ⟨hc, hc, fun status2 payload2 => by
      simp [GraphLoader_close, hc]⟩

/-- C10 witness: a creation reply with a server error status leaves the
freshly initialized instance closed and `close` a no-op on it. -/
theorem construction_failure_stays_closed_witness :
    ((⟨none, none, true⟩ : SessionState) = ⟨none, none, true⟩ ∧
      GraphLoader_is_closed ⟨none, none, true⟩ = true) ∧
    ((loaderNew [] ⟨none, none, true⟩ 7 []).state.closed = true ∧
      GraphLoader_is_closed (loaderNew [] ⟨none, none, true⟩ 7 []).state =
        true ∧
      (∀ status2 payload2,
        GraphLoader_close (loaderNew [] ⟨none, none, true⟩ 7 []).state
          status2 payload2 =
        ⟨[], .ok (), (loaderNew [] ⟨none, none, true⟩ 7 []).state⟩)) :=
  ⟨construction_failure_stays_closed.1 [] 1 [3] ⟨[], 1, [3]⟩
      ⟨none, none, true⟩ rfl,
   construction_failure_stays_closed.2.1 [] ⟨none, none, true⟩ 7 []
      (.serverError 7) rfl rfl⟩
